import Mathlib

/-!
Shallow embedding of the deblending module of BlendingToolKit (btk/deblend.py).

Conventions used throughout:

* Sky coordinates are pairs (ra, dec) in arcseconds, as produced inside the code by
  wcs.pixel_to_world_values followed by the times-3600 rescaling; rational numbers
  stand for the floating point values of the code.
* Calls into external libraries (sep.extract, skimage peak_local_max, the astropy
  nearest-neighbour search of match_to_catalog_sky, the scarlet fit, the detectron
  predictor) are modelled as explicit inputs: each deblender definition takes the
  data such a call would return for the example under consideration, and the control
  flow of the python function around the call is translated faithfully.
* Python exceptions (ValueError, AssertionError, numpy broadcast errors, IndexError)
  are modelled with Except String; a LinAlgError raised by the scarlet fit is a
  distinguished value of the fit input, since the code catches exactly that class.
-/

namespace BTK

/-- Sky coordinate (ra, dec) in arcseconds. -/
abbrev Coord : Type := ℚ × ℚ

/-- Three-dimensional numeric array (bands, ny, nx): the rendered model of a single
scarlet source, as produced by observations.render. Dimensions are carried together
with the contents. -/
structure Arr3 where
  d0 : Nat
  d1 : Nat
  d2 : Nat
  data : Nat → Nat → Nat → ℚ

/-- Four-dimensional numeric array, modelling numpy arrays of shape
(max_n_sources, n_bands, image_size, image_size). -/
structure Arr4 where
  d0 : Nat
  d1 : Nat
  d2 : Nat
  d3 : Nat
  data : Nat → Nat → Nat → Nat → ℚ

/-- Modelling of np.zeros((a, b, c, d)). -/
def zeros4 (a b c d : Nat) : Arr4 :=
  { d0 := a, d1 := b, d2 := c, d3 := d, data := fun _ _ _ _ => 0 }

/-- Modelled from the spec: btk.blend_batch.DeblendExample (the per-example
DetectionResult of the spec), whose definition is not under src. It is a plain
container for a catalog plus optional segmentation, deblended images and extra
payload; per the spec it is created once and immutable, and nothing in the spec has
its constructor altering or rejecting row counts. The three type parameters
abstract the segmentation, image and extra payload types, which differ between
strategies. -/
structure DeblendExample (Seg Img Extra : Type) where
  max_n_sources : Nat
  catalog : List Coord
  segmentation : Option Seg
  deblended_images : Option Img
  extra_data : Option Extra
  deriving DecidableEq

/-- Modelled from the spec: btk.blend_batch.DeblendBatch (the BatchResult of the
spec), whose definition is not under src. Optional batch fields hold the raw
per-example fields; numpy stacking becomes collecting into a list here. -/
structure DeblendBatch (Seg Img Extra : Type) where
  batch_size : Nat
  max_n_sources : Nat
  catalog_list : List (List Coord)
  segmentation : Option (List (Option Seg))
  deblended : Option (List (Option Img))
  extra_data : Option (List (Option Extra))
  deriving DecidableEq

/-- Modelled from the spec: btk.multiprocess.multiprocess, which is not under src.
The spec describes it as the execution primitive that runs the independent units of
work across njobs workers and returns the results as an order-preserving sequence,
so its observable behaviour is an order-preserving map whose result does not depend
on njobs. -/
def multiprocess {α : Type} (f : Nat → α) (args : List Nat) (njobs : Nat) : List α :=
  args.map f

/-- Deblender.batch_call: runs deblend on every example index of the batch through
multiprocess and reconciles the per-example results into a DeblendBatch. The
presence of each optional batch field is decided from the example at index 0 alone;
the python indexing output[0] raises IndexError on an empty batch, modelled by the
error branch. -/
def batch_call {Seg Img Extra : Type} (deblend : Nat → DeblendExample Seg Img Extra)
    (max_n_sources : Nat) (batch_size : Nat) (njobs : Nat) :
    Except String (DeblendBatch Seg Img Extra) :=
  match multiprocess deblend (List.range batch_size) njobs with
  | [] => Except.error "list index out of range"
  | first :: rest =>
    let output := first :: rest
    Except.ok
      { batch_size := batch_size
        max_n_sources := max_n_sources
        catalog_list := output.map (fun e => e.catalog)
        segmentation :=
          if first.segmentation.isSome then some (output.map (fun e => e.segmentation))
          else none
        deblended :=
          if first.deblended_images.isSome then some (output.map (fun e => e.deblended_images))
          else none
        extra_data :=
          if first.extra_data.isSome then some (output.map (fun e => e.extra_data))
          else none }

/-- Concrete sample per-example result with every optional field populated, used to
instantiate the batch-level theorems on concrete inputs. -/
def exSampleSome : DeblendExample Unit Unit Unit :=
  { max_n_sources := 1, catalog := [], segmentation := some (),
    deblended_images := some (), extra_data := some () }

/-- Modelled from the spec: skimage.feature.peak_local_max, an external library
call. With the num_peaks argument set, it returns at most num_peaks peaks (the
highest-intensity ones when more exist); all_peaks lists the peaks of the image in
the order the library ranks them, and the call keeps the first num_peaks of them. -/
def peak_local_max (all_peaks : List Coord) (num_peaks : Nat) : List Coord :=
  all_peaks.take num_peaks

/-- PeakLocalMax.deblend: calls peak_local_max with num_peaks set to max_n_sources,
converts the coordinates to (ra, dec) through the wcs conversion toSky, wraps them
in a catalog and raises if the catalog exceeds max_n_sources. -/
def peakLocalMaxDeblend (all_peaks : List Coord) (toSky : Coord → Coord)
    (max_n_sources : Nat) : Except String (DeblendExample Unit Unit Unit) :=
  let coordinates := peak_local_max all_peaks max_n_sources
  let catalog := coordinates.map toSky
  if max_n_sources < catalog.length then
    Except.error "PeakLocalMax detected more sources than max_n_sources. Consider increasing threshold_scale or max_n_sources."
  else
    Except.ok { max_n_sources := max_n_sources, catalog := catalog, segmentation := none,
                deblended_images := none, extra_data := none }

/-- SepSingleBand.deblend: sep.extract is modelled by its outputs, the extracted
object list (pixel positions, here already paired) and, through objSeg, the boolean
footprint of each object jj (segmentation == jj + 1); mulImg models masking the
reduced image with a footprint. The function raises when the extracted catalog
exceeds max_n_sources, otherwise builds zero-padded fixed-size segmentation and
deblended stacks of length max_n_sources and the (ra, dec) catalog. -/
def sepSingleBandDeblend {Seg Img : Type} (zeroSeg : Seg) (zeroImg : Img)
    (objSeg : Nat → Seg) (mulImg : Seg → Img) (extracted : List Coord)
    (toSky : Coord → Coord) (max_n_sources : Nat) :
    Except String (DeblendExample (List Seg) (List Img) Unit) :=
  if max_n_sources < extracted.length then
    Except.error "SEP predicted more sources than max_n_sources. Consider increasing thresh or max_n_sources."
  else
    let n_objects := extracted.length
    let segmentation_exp :=
      (List.range max_n_sources).map (fun jj => if jj < n_objects then objSeg jj else zeroSeg)
    let deblended_images :=
      (List.range max_n_sources).map
        (fun jj => if jj < n_objects then mulImg (objSeg jj) else zeroImg)
    Except.ok { max_n_sources := max_n_sources, catalog := extracted.map toSky,
                segmentation := some segmentation_exp,
                deblended_images := some deblended_images, extra_data := none }

/-- Nearest-neighbour distance of the candidate c to the nonempty running set S, as
returned for c by the astropy match_to_catalog_sky call (the second component,
converted to arcsec); dist is the angular separation function of the library. The
value for an empty S is irrelevant (the code never computes it) and defaults to 0. -/
def minDist (dist : Coord → Coord → ℚ) (c : Coord) (S : List Coord) : ℚ :=
  match S.map (dist c) with
  | [] => 0
  | d :: ds => ds.foldl min d

/-- One merge step of SepMultiBand.deblend for a single further band: when both the
new detections cands and the running coordinate list are nonempty, the candidates
whose nearest-neighbour distance to the running list is strictly greater than
matching_threshold are appended to the running list; otherwise all candidates are
appended without any distance computation. -/
def sepStep (dist : Coord → Coord → ℚ) (matching_threshold : ℚ)
    (running cands : List Coord) : List Coord :=
  if 0 < cands.length ∧ 0 < running.length then
    running ++ cands.filter (fun c => decide (matching_threshold < minDist dist c running))
  else
    running ++ cands

/-- Loop of SepMultiBand.deblend over the bands after the first: each band's
extracted catalog is checked against max_n_sources (raising when it exceeds it) and
then merged into the running coordinate list with sepStep. -/
def sepMultiBandGo (dist : Coord → Coord → ℚ) (matching_threshold : ℚ)
    (max_n_sources : Nat) :
    List Coord → List (List Coord) → Except String (List Coord)
  | running, [] => Except.ok running
  | running, band :: rest =>
    if max_n_sources < band.length then
      Except.error "SEP predicted more sources than max_n_sources. Consider increasing thresh or max_n_sources."
    else
      sepMultiBandGo dist matching_threshold max_n_sources
        (sepStep dist matching_threshold running band) rest

/-- SepMultiBand.deblend: band0 and rest are the per-band detection lists produced
by sep.extract plus the wcs conversion on each band of the example image; the first
band is checked against max_n_sources and seeds the running list, the remaining
bands are merged by sepMultiBandGo, and the final running list is wrapped in the
returned catalog (with no further check of its length). -/
def sepMultiBandDeblend (dist : Coord → Coord → ℚ) (matching_threshold : ℚ)
    (max_n_sources : Nat) (band0 : List Coord) (rest : List (List Coord)) :
    Except String (DeblendExample Unit Unit Unit) :=
  if max_n_sources < band0.length then
    Except.error "SEP predicted more sources than max_n_sources. Consider increasing thresh or max_n_sources."
  else
    match sepMultiBandGo dist matching_threshold max_n_sources band0 rest with
    | Except.error e => Except.error e
    | Except.ok coords =>
      Except.ok { max_n_sources := max_n_sources, catalog := coords, segmentation := none,
                  deblended_images := none, extra_data := none }

/-- Angular separation in arcsec specialised to points on the celestial equator
(dec = 0) whose right ascensions differ by less than half a turn: there the
great-circle separation is exactly the right-ascension difference. Used to
instantiate the abstract separation function on concrete inputs. -/
def eqDist (p q : Coord) : ℚ :=
  if p.1 ≤ q.1 then q.1 - p.1 else p.1 - q.1

/-- Python slicing l[k:] for a possibly negative start index k: a negative start
counts from the end of the list, clamped at 0. -/
def pySliceFrom {α : Type} (k : Int) (l : List α) : List α :=
  if 0 ≤ k then l.drop k.toNat else l.drop ((l.length + k).toNat)

/-- Extra payload dict of DeepDisc.deblend: starts empty and may receive the keys
segs and deblended_images in the overflow branch. -/
structure ExtraDict (Seg Img : Type) where
  segs : Option (List Seg)
  deblended_images : Option (List Img)
  deriving DecidableEq

/-- DeepDisc.deblend after the predictor call: segmentation is the list of predicted
masks (pred_masks), catalog the predicted box centers converted to sky coordinates,
and rimgMul models multiplying the transposed image by one mask. When the number of
masks exceeds max_n_sources the function raises unless allow_over_n_sources is set,
in which case the fixed arrays keep the first max_n_sources entries and the python
slices seg[(max - n):] (negative start) put the remaining entries into the extra
dict; otherwise the fixed arrays are the zero-padded stacks and the extra dict
stays empty. -/
def deepDiscDeblend {Seg Img : Type} (zeroSeg : Seg) (zeroImg : Img)
    (rimgMul : Seg → Img) (allow_over_n_sources : Bool) (max_n_sources : Nat)
    (catalog : List Coord) (segmentation : List Seg) :
    Except String (DeblendExample (List Seg) (List Img) (ExtraDict Seg Img)) :=
  if max_n_sources < segmentation.length ∧ allow_over_n_sources = false then
    Except.error "DeepDISC predicted more sources than max_n_sources. Consider increasing score_thresh or decreasing max_n_sources."
  else if max_n_sources < segmentation.length ∧ allow_over_n_sources = true then
    let segs := segmentation.take max_n_sources
    let extra_segs := pySliceFrom ((max_n_sources : Int) - (segmentation.length : Int)) segmentation
    let deblended_images := segmentation.map rimgMul
    let deblended_ims := deblended_images.take max_n_sources
    let extra_deblend :=
      pySliceFrom ((max_n_sources : Int) - (segmentation.length : Int)) deblended_images
    Except.ok { max_n_sources := max_n_sources, catalog := catalog, segmentation := some segs,
                deblended_images := some deblended_ims,
                extra_data := some { segs := some extra_segs,
                                     deblended_images := some extra_deblend } }
  else
    let segs := segmentation ++ List.replicate (max_n_sources - segmentation.length) zeroSeg
    let deblended_ims :=
      segmentation.map rimgMul ++ List.replicate (max_n_sources - segmentation.length) zeroImg
    Except.ok { max_n_sources := max_n_sources, catalog := catalog, segmentation := some segs,
                deblended_images := some deblended_ims,
                extra_data := some { segs := none, deblended_images := none } }

/-- Scarlet.deblend after the input wrangling: catalog is the reference (or truth)
catalog of the example, and fit models the scarlet calls init_all_sources plus
Blend.fit, which either raise a LinAlgError (the error case) or produce the list of
fitted sources, each with its selected peak and its rendered model. An empty
catalog short-circuits to an empty result; a LinAlgError is caught and also yields
an empty catalog with all-zero deblended images; on success the rendered models are
written into the zero-initialised stack (a numpy broadcast error when there are
more sources than max_n_sources), the assertion comparing peaks with the catalog is
checked, and the clipped stack is returned with the sources as extra payload. -/
def scarletDeblend (max_n_sources n_bands image_size : Nat) (catalog : List Coord)
    (fit : Except Unit (List (Coord × Arr3))) :
    Except String (DeblendExample Unit Arr4 (List (Coord × Arr3))) :=
  if catalog = [] then
    Except.ok { max_n_sources := max_n_sources, catalog := [], segmentation := none,
                deblended_images := some (zeros4 max_n_sources n_bands image_size image_size),
                extra_data := none }
  else
    match fit with
    | Except.error _ =>
      Except.ok { max_n_sources := max_n_sources, catalog := [], segmentation := none,
                  deblended_images := some (zeros4 max_n_sources n_bands image_size image_size),
                  extra_data := none }
    | Except.ok sources =>
      if max_n_sources < sources.length then
        Except.error "could not broadcast input array"
      else if sources.length ≠ catalog.length then
        Except.error "AssertionError"
      else
        Except.ok { max_n_sources := max_n_sources, catalog := catalog, segmentation := none,
                    deblended_images := some
                      { d0 := max_n_sources, d1 := n_bands, d2 := image_size, d3 := image_size,
                        data := fun i b y x =>
                          max (match sources.get? i with
                               | some s => s.2.data b y x
                               | none => 0) 0 },
                    extra_data := some sources }

/-- Helper of DeblendGenerator._get_unique_deblender_names: walks the name list
carrying the running counters of names_counts; dup tells whether a name occurs more
than once overall, and for such names the current counter value is appended as a
suffix before the counter is bumped. -/
def uniqueNamesAux (dup : String → Bool) : (String → Nat) → List String → List String
  | _, [] => []
  | counts, name :: rest =>
    if dup name then
      (name ++ "_" ++ toString (counts name)) ::
        uniqueNamesAux dup (fun m => if m = name then counts m + 1 else counts m) rest
    else
      name :: uniqueNamesAux dup counts rest

/-- DeblendGenerator._get_unique_deblender_names: every name occurring more than
once in the list receives the suffix underscore plus its running occurrence count,
starting from 0; names occurring once are left unchanged. -/
def get_unique_deblender_names (deblender_names : List String) : List String :=
  uniqueNamesAux (fun n => decide (1 < deblender_names.count n)) (fun _ => 0)
    deblender_names

/-- Helper: an optional batch field of the reconciliation is the gated collection of
the raw per-example fields; it is none iff the gating optional value is none, and
when it is some list, that list is the collected one. -/
theorem batch_gate_spec {α β : Type} (x : Option α) (M : List β) :
    ((if x.isSome = true then some M else none) = none ↔ x = none) ∧
    (∀ s, (if x.isSome = true then some M else none) = some s → s = M) := by
  cases x <;> simp

/-- Helper: evaluation of batch_call on a batch of size m + 1. -/
theorem batch_call_succ {Seg Img Extra : Type} (deblend : Nat → DeblendExample Seg Img Extra)
    (max_n_sources m njobs : Nat) :
    batch_call deblend max_n_sources (m + 1) njobs = Except.ok
      { batch_size := m + 1
        max_n_sources := max_n_sources
        catalog_list := (List.range (m + 1)).map (fun i => (deblend i).catalog)
        segmentation :=
          if (deblend 0).segmentation.isSome then
            some ((List.range (m + 1)).map (fun i => (deblend i).segmentation))
          else none
        deblended :=
          if (deblend 0).deblended_images.isSome then
            some ((List.range (m + 1)).map (fun i => (deblend i).deblended_images))
          else none
        extra_data :=
          if (deblend 0).extra_data.isSome then
            some ((List.range (m + 1)).map (fun i => (deblend i).extra_data))
          else none } := by
  simp [batch_call, multiprocess, List.range_succ_eq_map, List.map_map,
    Function.comp_def, Nat.succ_eq_add_one]

/-- C4: batch_call returns, for every nonempty batch, a DeblendBatch whose
catalog_list entry at each index ii is the catalog of deblend applied to ii, in the
original example order, and the result with any njobs equals the fully sequential
njobs = 1 result. -/
theorem c4_batch_order {Seg Img Extra : Type} (deblend : Nat → DeblendExample Seg Img Extra)
    (max_n_sources batch_size njobs : Nat) (h : 0 < batch_size) :
    ∃ res : DeblendBatch Seg Img Extra,
      batch_call deblend max_n_sources batch_size njobs = Except.ok res ∧
      (∀ ii, ii < batch_size → res.catalog_list.get? ii = some (deblend ii).catalog) ∧
      batch_call deblend max_n_sources batch_size njobs =
        batch_call deblend max_n_sources batch_size 1 := by
  obtain ⟨m, rfl⟩ : ∃ m, batch_size = m + 1 := ⟨batch_size - 1, by omega⟩
  refine ⟨_, batch_call_succ deblend max_n_sources m njobs, ?_, rfl⟩
  intro ii hii
  dsimp only
  rw [List.get?_map, List.get?_range hii]
  rfl

/-- Witness for C4 on a batch of size 2 with njobs = 3. -/
theorem c4_batch_order_witness :
    ∃ res : DeblendBatch Unit Unit Unit,
      batch_call (fun _ => exSampleSome) 1 2 3 = Except.ok res ∧
      (∀ ii, ii < 2 → res.catalog_list.get? ii =
        some ((fun _ => exSampleSome) ii).catalog) ∧
      batch_call (fun _ => exSampleSome) 1 2 3 =
        batch_call (fun _ => exSampleSome) 1 2 1 :=
  c4_batch_order (fun _ => exSampleSome) 1 2 3 (by omega)

/-- C5: batch_call decides the presence of each optional batch field solely from the
example at index 0; the field is none iff the first example's field is none, and
when it is some list, that list collects the raw field of every example in order,
with no further validation of the other examples. -/
theorem c5_first_example_presence {Seg Img Extra : Type}
    (deblend : Nat → DeblendExample Seg Img Extra) (max_n_sources batch_size njobs : Nat)
    (h : 0 < batch_size) (res : DeblendBatch Seg Img Extra)
    (hres : batch_call deblend max_n_sources batch_size njobs = Except.ok res) :
    ((res.segmentation = none ↔ (deblend 0).segmentation = none) ∧
      (∀ s, res.segmentation = some s →
        s = (List.range batch_size).map (fun i => (deblend i).segmentation))) ∧
    ((res.deblended = none ↔ (deblend 0).deblended_images = none) ∧
      (∀ s, res.deblended = some s →
        s = (List.range batch_size).map (fun i => (deblend i).deblended_images))) ∧
    ((res.extra_data = none ↔ (deblend 0).extra_data = none) ∧
      (∀ s, res.extra_data = some s →
        s = (List.range batch_size).map (fun i => (deblend i).extra_data))) := by
  obtain ⟨m, rfl⟩ : ∃ m, batch_size = m + 1 := ⟨batch_size - 1, by omega⟩
  rw [batch_call_succ] at hres
  injection hres with hres
  subst hres
  exact ⟨⟨(batch_gate_spec _ _).1, (batch_gate_spec _ _).2⟩,
    ⟨(batch_gate_spec _ _).1, (batch_gate_spec _ _).2⟩,
    ⟨(batch_gate_spec _ _).1, (batch_gate_spec _ _).2⟩⟩

/-- Witness for C5 on a singleton batch whose example has every optional field
populated. -/
theorem c5_first_example_presence_witness :
    (((some [some ()] : Option (List (Option Unit))) = none ↔
        exSampleSome.segmentation = none) ∧
      (∀ s, (some [some ()] : Option (List (Option Unit))) = some s →
        s = (List.range 1).map (fun i => ((fun _ => exSampleSome) i).segmentation))) ∧
    (((some [some ()] : Option (List (Option Unit))) = none ↔
        exSampleSome.deblended_images = none) ∧
      (∀ s, (some [some ()] : Option (List (Option Unit))) = some s →
        s = (List.range 1).map (fun i => ((fun _ => exSampleSome) i).deblended_images))) ∧
    (((some [some ()] : Option (List (Option Unit))) = none ↔
        exSampleSome.extra_data = none) ∧
      (∀ s, (some [some ()] : Option (List (Option Unit))) = some s →
        s = (List.range 1).map (fun i => ((fun _ => exSampleSome) i).extra_data))) :=
  c5_first_example_presence (fun _ => exSampleSome) 1 1 2 (by omega)
    { batch_size := 1, max_n_sources := 1, catalog_list := [[]],
      segmentation := some [some ()], deblended := some [some ()],
      extra_data := some [some ()] } rfl

/-- Helper: one merge step never grows the running list by more than the number of
candidates of the band. -/
theorem sepStep_length_le (dist : Coord → Coord → ℚ) (thr : ℚ)
    (running cands : List Coord) :
    (sepStep dist thr running cands).length ≤ running.length + cands.length := by
  rw [sepStep]
  split_ifs
  · simp only [List.length_append]
    have := List.length_filter_le (fun c => decide (thr < minDist dist c running)) cands
    omega
  · simp

/-- Helper: when the band loop of SepMultiBand.deblend succeeds, every processed
band was within the cap and the final list is bounded by the initial list plus one
cap per band. -/
theorem sepMultiBandGo_ok (dist : Coord → Coord → ℚ) (thr : ℚ) (max_n_sources : Nat) :
    ∀ (bs : List (List Coord)) (running final : List Coord),
      sepMultiBandGo dist thr max_n_sources running bs = Except.ok final →
      (∀ b ∈ bs, b.length ≤ max_n_sources) ∧
        final.length ≤ running.length + bs.length * max_n_sources := by
  intro bs
  induction bs with
  | nil =>
    intro running final h
    simp only [sepMultiBandGo] at h
    injection h with h
    subst h
    simp
  | cons band rest ih =>
    intro running final h
    simp only [sepMultiBandGo] at h
    by_cases hb : max_n_sources < band.length
    · rw [if_pos hb] at h
      simp at h
    · rw [if_neg hb] at h
      obtain ⟨hrest, hlen⟩ := ih (sepStep dist thr running band) final h
      refine ⟨?_, ?_⟩
      · intro b hbmem
        rcases List.mem_cons.mp hbmem with rfl | hmem
        · omega
        · exact hrest b hmem
      · have hstep := sepStep_length_le dist thr running band
        simp only [List.length_cons, Nat.succ_mul]
        omega

/-- C2: in the duplicate suppression of SepMultiBand, with both the running set and
the candidate set nonempty, a candidate is appended to the running set iff its
nearest-neighbour distance to the running set is strictly greater than
matching_threshold; a candidate at distance exactly equal to the threshold is
suppressed. -/
theorem c2_duplicate_suppression_strict (dist : Coord → Coord → ℚ) (thr : ℚ)
    (running cands : List Coord) (h1 : running ≠ []) (h2 : cands ≠ []) :
    (∀ c : Coord, c ∈ (sepStep dist thr running cands).drop running.length ↔
      (c ∈ cands ∧ thr < minDist dist c running)) ∧
    (∀ c ∈ cands, minDist dist c running = thr →
      c ∉ (sepStep dist thr running cands).drop running.length) := by
  have hg : 0 < cands.length ∧ 0 < running.length :=
    ⟨List.length_pos.mpr h2, List.length_pos.mpr h1⟩
  have hstep : sepStep dist thr running cands =
      running ++ cands.filter (fun c => decide (thr < minDist dist c running)) := by
    rw [sepStep, if_pos hg]
  constructor
  · intro c
    rw [hstep, List.drop_left, List.mem_filter]
    simp
  · intro c hc heq hmem
    rw [hstep, List.drop_left, List.mem_filter] at hmem
    have hlt := of_decide_eq_true hmem.2
    rw [heq] at hlt
    exact lt_irrefl thr hlt

/-- Witness for C2 at a concrete boundary input: one running coordinate at the
origin, one candidate exactly 1 arcsec away, threshold 1. -/
theorem c2_duplicate_suppression_strict_witness :
    ((1 : ℚ), (0 : ℚ)) ∈
        (sepStep eqDist 1 [((0 : ℚ), (0 : ℚ))] [((1 : ℚ), (0 : ℚ))]).drop
          ([((0 : ℚ), (0 : ℚ))] : List Coord).length ↔
      (((1 : ℚ), (0 : ℚ)) ∈ ([((1 : ℚ), (0 : ℚ))] : List Coord) ∧
        (1 : ℚ) < minDist eqDist ((1 : ℚ), (0 : ℚ)) [((0 : ℚ), (0 : ℚ))]) :=
  (c2_duplicate_suppression_strict eqDist 1 [((0 : ℚ), (0 : ℚ))] [((1 : ℚ), (0 : ℚ))]
    (by simp) (by simp)).1 ((1 : ℚ), (0 : ℚ))

/-- C3: in the duplicate suppression of SepMultiBand, when either the running set or
the candidate set is empty, every candidate is appended and the result does not
depend on the distance function (no distance is computed). -/
theorem c3_empty_set_all_survive (thr : ℚ) (running cands : List Coord)
    (h : running = [] ∨ cands = []) :
    ∀ dist : Coord → Coord → ℚ, sepStep dist thr running cands = running ++ cands := by
  intro dist
  rcases h with h | h <;> subst h <;> simp [sepStep]

/-- Witness for C3: an empty running set with one candidate. -/
theorem c3_empty_set_all_survive_witness :
    sepStep eqDist 1 [] [((0 : ℚ), (0 : ℚ))] = [] ++ [((0 : ℚ), (0 : ℚ))] :=
  c3_empty_set_all_survive 1 [] [((0 : ℚ), (0 : ℚ))] (Or.inl rfl) eqDist

/-- C1 fails as stated: with max_n_sources = 1 and two bands each detecting a single
source, 36000 arcsec apart on the equator, SepMultiBand.deblend passes both
per-band checks yet returns a merged catalog of 2 rows, exceeding max_n_sources. -/
theorem c1_catalog_cap_counterexample :
    sepMultiBandDeblend eqDist 1 1 [((0 : ℚ), (0 : ℚ))] [[((36000 : ℚ), (0 : ℚ))]] =
      Except.ok { max_n_sources := 1,
                  catalog := [((0 : ℚ), (0 : ℚ)), ((36000 : ℚ), (0 : ℚ))],
                  segmentation := none, deblended_images := none, extra_data := none } ∧
    ¬ (([((0 : ℚ), (0 : ℚ)), ((36000 : ℚ), (0 : ℚ))] : List Coord).length ≤ 1) := by
  constructor
  · norm_num [sepMultiBandDeblend, sepMultiBandGo, sepStep, minDist, eqDist]
  · norm_num

/-- C1 amended: PeakLocalMax, SepSingleBand and Scarlet return catalogs of at most
max_n_sources rows whenever deblend returns a DeblendExample, and SepMultiBand
enforces the cap on each per-band catalog (first band included), but its merged
cross-band catalog is only bounded by the number of bands times max_n_sources, not
by max_n_sources. -/
theorem c1_catalog_cap_amended :
    (∀ (all_peaks : List Coord) (toSky : Coord → Coord) (max_n_sources : Nat)
        (ex : DeblendExample Unit Unit Unit),
        peakLocalMaxDeblend all_peaks toSky max_n_sources = Except.ok ex →
        ex.catalog.length ≤ max_n_sources) ∧
    (∀ (Seg Img : Type) (zeroSeg : Seg) (zeroImg : Img) (objSeg : Nat → Seg)
        (mulImg : Seg → Img) (extracted : List Coord) (toSky : Coord → Coord)
        (max_n_sources : Nat) (ex : DeblendExample (List Seg) (List Img) Unit),
        sepSingleBandDeblend zeroSeg zeroImg objSeg mulImg extracted toSky max_n_sources =
          Except.ok ex → ex.catalog.length ≤ max_n_sources) ∧
    (∀ (max_n_sources n_bands image_size : Nat) (catalog : List Coord)
        (fit : Except Unit (List (Coord × Arr3)))
        (ex : DeblendExample Unit Arr4 (List (Coord × Arr3))),
        scarletDeblend max_n_sources n_bands image_size catalog fit = Except.ok ex →
        ex.catalog.length ≤ max_n_sources) ∧
    (∀ (dist : Coord → Coord → ℚ) (matching_threshold : ℚ) (max_n_sources : Nat)
        (band0 : List Coord) (rest : List (List Coord))
        (ex : DeblendExample Unit Unit Unit),
        sepMultiBandDeblend dist matching_threshold max_n_sources band0 rest =
          Except.ok ex →
        band0.length ≤ max_n_sources ∧ (∀ b ∈ rest, b.length ≤ max_n_sources) ∧
          ex.catalog.length ≤ (1 + rest.length) * max_n_sources) := by
  refine ⟨?_, ?_, ?_, ?_⟩
  · intro all_peaks toSky max_n_sources ex h
    simp only [peakLocalMaxDeblend, peak_local_max] at h
    split_ifs at h with hlt
    injection h with h
    subst h
    dsimp only
    simp only [List.length_take, List.length_map]
    omega
  · intro Seg Img zeroSeg zeroImg objSeg mulImg extracted toSky max_n_sources ex h
    simp only [sepSingleBandDeblend] at h
    split_ifs at h with hlt
    injection h with h
    subst h
    dsimp only
    simp only [List.length_map]
    omega
  · intro max_n_sources n_bands image_size catalog fit ex h
    simp only [scarletDeblend] at h
    by_cases hcat : catalog = []
    · rw [if_pos hcat] at h
      injection h with h
      subst h
      simp
    · rw [if_neg hcat] at h
      cases fit with
      | error e =>
        simp only [] at h
        injection h with h
        subst h
        simp
      | ok sources =>
        simp only [] at h
        split_ifs at h with hb hne
        injection h with h
        subst h
        push_neg at hne
        dsimp only
        omega
  · intro dist matching_threshold max_n_sources band0 rest ex h
    simp only [sepMultiBandDeblend] at h
    by_cases hb0 : max_n_sources < band0.length
    · rw [if_pos hb0] at h
      simp at h
    · rw [if_neg hb0] at h
      rcases hgo : sepMultiBandGo dist matching_threshold max_n_sources band0 rest with
        e | coords
      · rw [hgo] at h
        simp only [] at h
        simp at h
      · rw [hgo] at h
        simp only [] at h
        injection h with h
        subst h
        obtain ⟨hbands, hlen⟩ :=
          sepMultiBandGo_ok dist matching_threshold max_n_sources rest band0 coords hgo
        refine ⟨Nat.not_lt.mp hb0, hbands, ?_⟩
        dsimp only
        simp only [Nat.add_mul, Nat.one_mul]
        omega

/-- C6: when the catalog is nonempty and the scarlet fit raises a LinAlgError, the
error is caught and Scarlet.deblend returns (rather than propagating) a
DeblendExample with an empty catalog and the all-zero deblended image array of
shape (max_n_sources, n_bands, image_size, image_size). -/
theorem c6_scarlet_linalg_recovery (max_n_sources n_bands image_size : Nat)
    (catalog : List Coord) (hne : catalog ≠ []) :
    scarletDeblend max_n_sources n_bands image_size catalog (Except.error ()) =
      Except.ok { max_n_sources := max_n_sources, catalog := [], segmentation := none,
                  deblended_images :=
                    some (zeros4 max_n_sources n_bands image_size image_size),
                  extra_data := none } ∧
    ∀ i b y x,
      (zeros4 max_n_sources n_bands image_size image_size).data i b y x = 0 := by
  constructor
  · simp only [scarletDeblend]
    rw [if_neg hne]
  · intro i b y x
    rfl

/-- Witness for C6 with a one-source catalog and unit dimensions. -/
theorem c6_scarlet_linalg_recovery_witness :
    scarletDeblend 1 1 1 [((0 : ℚ), (0 : ℚ))] (Except.error ()) =
      Except.ok { max_n_sources := 1, catalog := [], segmentation := none,
                  deblended_images := some (zeros4 1 1 1 1), extra_data := none } :=
  (c6_scarlet_linalg_recovery 1 1 1 [((0 : ℚ), (0 : ℚ))] (by simp)).1

/-- Helper: the python slice l[(max - n):] with n the length of l and max strictly
below n takes the last n - max elements, that is, drops the first max. -/
theorem pySliceFrom_neg {α : Type} (l : List α) (n max_n : Nat) (hlen : l.length = n)
    (h : max_n < n) :
    pySliceFrom ((max_n : Int) - (n : Int)) l = l.drop max_n := by
  subst hlen
  simp only [pySliceFrom]
  rw [if_neg (by omega)]
  congr 1
  omega

/-- C7: with allow_over_n_sources set and more detections than max_n_sources, the
fixed-size segmentation and deblended arrays of DeepDisc.deblend hold exactly the
first max_n_sources detections, the extra payload holds exactly the remaining
detections, and the counts add up to the raw detection count. -/
theorem c7_deepdisc_overflow {Seg Img : Type} (zeroSeg : Seg) (zeroImg : Img)
    (rimgMul : Seg → Img) (max_n_sources : Nat) (catalog : List Coord)
    (segmentation : List Seg) (hover : max_n_sources < segmentation.length) :
    deepDiscDeblend zeroSeg zeroImg rimgMul true max_n_sources catalog segmentation =
      Except.ok { max_n_sources := max_n_sources, catalog := catalog,
                  segmentation := some (segmentation.take max_n_sources),
                  deblended_images := some ((segmentation.map rimgMul).take max_n_sources),
                  extra_data := some
                    { segs := some (segmentation.drop max_n_sources),
                      deblended_images :=
                        some ((segmentation.map rimgMul).drop max_n_sources) } } ∧
    (segmentation.take max_n_sources).length = max_n_sources ∧
    (segmentation.take max_n_sources).length +
        (segmentation.drop max_n_sources).length = segmentation.length := by
  refine ⟨?_, ?_, ?_⟩
  · simp only [deepDiscDeblend]
    rw [if_neg (by simp), if_pos ⟨hover, trivial⟩]
    rw [pySliceFrom_neg segmentation segmentation.length max_n_sources rfl hover,
      pySliceFrom_neg (segmentation.map rimgMul) segmentation.length max_n_sources
        (List.length_map _ _) hover]
  · rw [List.length_take]
    omega
  · rw [List.length_take, List.length_drop]
    omega

/-- Witness for C7: two detections with max_n_sources = 1. -/
theorem c7_deepdisc_overflow_witness :
    deepDiscDeblend (0 : Nat) (0 : Nat) (fun s => s + 10) true 1 [] [5, 7] =
      Except.ok { max_n_sources := 1, catalog := [],
                  segmentation := some [5],
                  deblended_images := some [15],
                  extra_data := some { segs := some [7],
                                       deblended_images := some [17] } } ∧
    (([5, 7] : List Nat).take 1).length = 1 ∧
    (([5, 7] : List Nat).take 1).length + (([5, 7] : List Nat).drop 1).length =
      ([5, 7] : List Nat).length :=
  c7_deepdisc_overflow 0 0 (fun s => s + 10) 1 [] [5, 7] (by decide)

/-- C9: PeakLocalMax.deblend never reaches its over-max_n_sources error branch: the
peak finder is called with num_peaks equal to max_n_sources, which caps the number
of peaks, so deblend always returns the (at most max_n_sources) capped peaks and
any excess peaks are dropped by the finder, not surfaced as an error. -/
theorem c9_peak_guard_unreachable (all_peaks : List Coord) (toSky : Coord → Coord)
    (max_n_sources : Nat) :
    peakLocalMaxDeblend all_peaks toSky max_n_sources =
      Except.ok { max_n_sources := max_n_sources,
                  catalog := (peak_local_max all_peaks max_n_sources).map toSky,
                  segmentation := none, deblended_images := none, extra_data := none } ∧
    ((peak_local_max all_peaks max_n_sources).map toSky).length ≤ max_n_sources := by
  have hlen : ((peak_local_max all_peaks max_n_sources).map toSky).length ≤
      max_n_sources := by
    rw [List.length_map, peak_local_max, List.length_take]
    omega
  refine ⟨?_, hlen⟩
  simp only [peakLocalMaxDeblend]
  rw [if_neg (Nat.not_lt.mpr hlen)]

/-- C10: whenever DeepDisc.deblend returns a DeblendExample, its extra_data field is
populated (an empty dict rather than none when no overflow happened), so a batch
whose first example came from DeepDisc always materializes the batch-level
extra-data list. -/
theorem c10_deepdisc_extra_not_none {Seg Img : Type} (zeroSeg : Seg) (zeroImg : Img)
    (rimgMul : Seg → Img) (allow_over_n_sources : Bool) (max_n_sources : Nat)
    (catalog : List Coord) (segmentation : List Seg)
    (ex : DeblendExample (List Seg) (List Img) (ExtraDict Seg Img))
    (h : deepDiscDeblend zeroSeg zeroImg rimgMul allow_over_n_sources max_n_sources
        catalog segmentation = Except.ok ex) :
    ex.extra_data.isSome = true ∧
    ∀ (maxN m njobs : Nat)
      (debFn : Nat → DeblendExample (List Seg) (List Img) (ExtraDict Seg Img))
      (res : DeblendBatch (List Seg) (List Img) (ExtraDict Seg Img)),
      debFn 0 = ex → batch_call debFn maxN (m + 1) njobs = Except.ok res →
      res.extra_data.isSome = true := by
  have hex : ex.extra_data.isSome = true := by
    simp only [deepDiscDeblend] at h
    split_ifs at h with h1 h2
    all_goals (injection h with h; subst h; rfl)
  refine ⟨hex, ?_⟩
  intro maxN m njobs debFn res hdeb hres
  rw [batch_call_succ] at hres
  injection hres with hres
  subst hres
  simp [hdeb, hex]

/-- Witness for C10: a single detection with max_n_sources = 2 and no overflow,
together with the resulting singleton batch. -/
theorem c10_deepdisc_extra_not_none_witness :
    ({ max_n_sources := 2, catalog := [], segmentation := some [5, 0],
       deblended_images := some [5, 0],
       extra_data := some { segs := none, deblended_images := none } } :
       DeblendExample (List Nat) (List Nat) (ExtraDict Nat Nat)).extra_data.isSome =
      true ∧
    ({ batch_size := 1, max_n_sources := 2, catalog_list := [[]],
       segmentation := some [some [5, 0]], deblended := some [some [5, 0]],
       extra_data :=
        some [some { segs := none, deblended_images := none }] } :
       DeblendBatch (List Nat) (List Nat) (ExtraDict Nat Nat)).extra_data.isSome =
      true :=
  ⟨(c10_deepdisc_extra_not_none 0 0 id false 2 [] [5] _ rfl).1,
    (c10_deepdisc_extra_not_none 0 0 id false 2 [] [5] _ rfl).2 2 0 3
      (fun _ => { max_n_sources := 2, catalog := [], segmentation := some [5, 0],
                  deblended_images := some [5, 0],
                  extra_data := some { segs := none, deblended_images := none } })
      { batch_size := 1, max_n_sources := 2, catalog_list := [[]],
        segmentation := some [some [5, 0]], deblended := some [some [5, 0]],
        extra_data := some [some { segs := none, deblended_images := none }] }
      rfl rfl⟩

/-- C8 fails as stated: with two instances of the same type name, the first instance
does not keep the bare name, it receives the suffix underscore-zero. -/
theorem c8_name_suffix_counterexample :
    get_unique_deblender_names ["SepSingleBand", "SepSingleBand"] =
      ["SepSingleBand_0", "SepSingleBand_1"] ∧
    ("SepSingleBand_0" : String) ≠ "SepSingleBand" := by
  constructor
  · rfl
  · decide

/-- Helper: element-wise description of uniqueNamesAux when its counters are the
occurrence counts of an already-processed prefix. -/
theorem uniqueNamesAux_get? (dup : String → Bool) :
    ∀ (l seen : List String) (i : Nat),
      (uniqueNamesAux dup (fun n => seen.count n) l).get? i =
        (l.get? i).map (fun n =>
          if dup n then n ++ "_" ++ toString ((seen ++ l.take i).count n) else n) := by
  intro l
  induction l with
  | nil =>
    intro seen i
    simp [uniqueNamesAux]
  | cons name rest ih =>
    intro seen i
    cases i with
    | zero =>
      by_cases hd : dup name = true
      · simp [uniqueNamesAux, hd]
      · simp [uniqueNamesAux, hd]
    | succ j =>
      have hupdate :
          (fun m => if m = name then (fun n => seen.count n) m + 1
                    else (fun n => seen.count n) m) =
            fun n => (seen ++ [name]).count n := by
        funext m
        by_cases hm : m = name
        · subst hm
          simp [List.count_append, List.count_cons, List.count_nil]
        · simp [List.count_append, List.count_cons, List.count_nil, hm]
      by_cases hd : dup name = true
      · have hbody : uniqueNamesAux dup (fun n => seen.count n) (name :: rest) =
            (name ++ "_" ++ toString (seen.count name)) ::
              uniqueNamesAux dup
                (fun m => if m = name then seen.count m + 1 else seen.count m) rest := by
          simp only [uniqueNamesAux]
          rw [if_pos hd]
        rw [hbody, List.get?_cons_succ, hupdate, ih (seen ++ [name]) j,
          List.get?_cons_succ]
        simp [List.append_assoc, List.take_succ_cons, List.singleton_append]
      · have hbody : uniqueNamesAux dup (fun n => seen.count n) (name :: rest) =
            name :: uniqueNamesAux dup (fun n => seen.count n) rest := by
          simp only [uniqueNamesAux]
          rw [if_neg hd]
        rw [hbody, List.get?_cons_succ, ih seen j, List.get?_cons_succ]
        cases hr : rest.get? j with
        | none => simp
        | some x =>
          simp only [Option.map_some']
          by_cases hdx : dup x = true
          · have hxn : x ≠ name := by
              intro hxe
              rw [hxe] at hdx
              exact hd hdx
            simp only [hdx, if_true, List.take_succ_cons]
            have hcount : (seen ++ name :: rest.take j).count x =
                (seen ++ rest.take j).count x := by
              simp [List.count_append, List.count_cons, hxn]
            rw [hcount]
          · simp [hdx, List.take_succ_cons]

/-- C8 amended: every occurrence of a type name that is duplicated in the supplied
list receives a numeric suffix, the k-th occurrence (0-based, in construction
order) getting suffix k, so the first duplicated instance gets suffix 0 rather than
keeping the bare name; names whose type occurs exactly once stay unsuffixed. -/
theorem c8_name_suffix_amended (names : List String) (i : Nat) :
    (get_unique_deblender_names names).get? i =
      (names.get? i).map (fun n =>
        if 1 < names.count n then n ++ "_" ++ toString ((names.take i).count n)
        else n) := by
  have hcounts : (fun _ => (0 : Nat)) = fun n => ([] : List String).count n := by
    funext n
    simp
  have h := uniqueNamesAux_get? (fun n => decide (1 < names.count n)) names [] i
  simp only [List.nil_append] at h
  simp only [get_unique_deblender_names]
  rw [hcounts, h]
  simp [decide_eq_true_eq]

/-- Witness for the amended C1, applying each conjunct at a concrete input. -/
theorem c1_catalog_cap_amended_witness :
    (({ max_n_sources := 2, catalog := [((0 : ℚ), (0 : ℚ))], segmentation := none,
        deblended_images := none, extra_data := none } :
        DeblendExample Unit Unit Unit)).catalog.length ≤ 2 ∧
    (({ max_n_sources := 2, catalog := [((0 : ℚ), (0 : ℚ))],
        segmentation := some [1, 0], deblended_images := some [1, 0],
        extra_data := none } :
        DeblendExample (List Nat) (List Nat) Unit)).catalog.length ≤ 2 ∧
    (({ max_n_sources := 2, catalog := [], segmentation := none,
        deblended_images := some (zeros4 2 1 1 1), extra_data := none } :
        DeblendExample Unit Arr4 (List (Coord × Arr3)))).catalog.length ≤ 2 ∧
    (([((0 : ℚ), (0 : ℚ))] : List Coord).length ≤ 2 ∧
      (∀ b ∈ ([] : List (List Coord)), b.length ≤ 2) ∧
      (({ max_n_sources := 2, catalog := [((0 : ℚ), (0 : ℚ))], segmentation := none,
          deblended_images := none, extra_data := none } :
          DeblendExample Unit Unit Unit)).catalog.length ≤ (1 + 0) * 2) := by
  refine ⟨?_, ?_, ?_, ?_⟩
  · exact c1_catalog_cap_amended.1 [((0 : ℚ), (0 : ℚ))] id 2 _ rfl
  · exact c1_catalog_cap_amended.2.1 Nat Nat 0 0 (fun _ => 1) id [((0 : ℚ), (0 : ℚ))] id 2
      _ rfl
  · exact c1_catalog_cap_amended.2.2.1 2 1 1 [] (Except.error ()) _ rfl
  · exact c1_catalog_cap_amended.2.2.2 eqDist 1 2 [((0 : ℚ), (0 : ℚ))] [] _ rfl

end BTK
